import Mathlib

/-!
Verification development for the MindGuard risk-assessment pipeline.

The definitions below are shallow embeddings of the repository's code:
- `riskScore`, `generateFallbackPrediction` embed the fallback scoring engine
  of `routes/assessment.js` (`generateFallbackPrediction`).
- `assessmentValidation`, `handleSubmit` embed the express-validator rules and
  the `POST /submit` handler of the same file.
- `getHistory` embeds the `GET /history` handler.
- `getRiskTrend` embeds the trend derivation of `pages/Dashboard.tsx`.

JavaScript numbers are modelled by `ℚ`: every quantity the scoring engine
manipulates is a sum of integers and integer multiples of 1.5, all exactly
representable in binary floating point, so rational arithmetic matches the
source semantics exactly. The wall-clock timestamp attached to a prediction
(`new Date().toISOString()`) is impure; it is passed in as an explicit
`now : String` argument.
-/

namespace MindGuard

/-- The ten-field questionnaire payload (`MentalHealthForm` in the frontend
types, `formData` in the backend route). Fields are integers, as enforced by
the validator. -/
structure FactorVector where
  sleepHours : Int
  anxietyLevel : Int
  stressFrequency : Int
  financialStress : Int
  socialSupport : Int
  workLifeBalance : Int
  physicalActivity : Int
  substanceUse : Int
  moodChanges : Int
  suicidalThoughts : Int
deriving DecidableEq, Repr

/-- Validity of a factor vector: each field inside the closed range declared
by the validator rules (`sleepHours` 0–12, all others 1–10). -/
def FactorVector.Valid (f : FactorVector) : Prop :=
  0 ≤ f.sleepHours ∧ f.sleepHours ≤ 12 ∧
  1 ≤ f.anxietyLevel ∧ f.anxietyLevel ≤ 10 ∧
  1 ≤ f.stressFrequency ∧ f.stressFrequency ≤ 10 ∧
  1 ≤ f.financialStress ∧ f.financialStress ≤ 10 ∧
  1 ≤ f.socialSupport ∧ f.socialSupport ≤ 10 ∧
  1 ≤ f.workLifeBalance ∧ f.workLifeBalance ≤ 10 ∧
  1 ≤ f.physicalActivity ∧ f.physicalActivity ≤ 10 ∧
  1 ≤ f.substanceUse ∧ f.substanceUse ≤ 10 ∧
  1 ≤ f.moodChanges ∧ f.moodChanges ≤ 10 ∧
  1 ≤ f.suicidalThoughts ∧ f.suicidalThoughts ≤ 10

instance (f : FactorVector) : Decidable f.Valid := by
  unfold FactorVector.Valid; infer_instance

/-- The risk score accumulated by `generateFallbackPrediction`, term by term
in the order the source adds them: the three-bucket sleep penalty, then the
weighted linear and inverted-linear contributions. No clamp is applied. -/
def riskScore (f : FactorVector) : ℚ :=
  (if f.sleepHours < 6 then (15 : ℚ)
   else if f.sleepHours < 7 then 8
   else if f.sleepHours > 9 then 5
   else 0)
  + ((f.anxietyLevel : ℚ) - 1) * 2
  + ((f.stressFrequency : ℚ) - 1) * 2
  + ((f.financialStress : ℚ) - 1) * 1.5
  + (10 - (f.socialSupport : ℚ)) * 2
  + (10 - (f.workLifeBalance : ℚ)) * 1.5
  + (10 - (f.physicalActivity : ℚ)) * 1
  + ((f.substanceUse : ℚ) - 1) * 3
  + ((f.moodChanges : ℚ) - 1) * 2
  + ((f.suicidalThoughts : ℚ) - 1) * 5

/-- Recommendation set A, returned verbatim for `Low Risk`. -/
def lowRiskRecommendations : List String :=
  ["Continue maintaining healthy habits",
   "Regular exercise and good sleep schedule",
   "Stay connected with friends and family",
   "Practice stress management techniques"]

/-- Recommendation set B, returned verbatim for `Medium Risk`. -/
def mediumRiskRecommendations : List String :=
  ["Consider speaking with a mental health professional",
   "Focus on improving sleep quality and duration",
   "Increase physical activity and social connections",
   "Practice mindfulness and stress reduction techniques",
   "Limit alcohol and substance use"]

/-- Recommendation set C, returned verbatim for `High Risk`. -/
def highRiskRecommendations : List String :=
  ["Strongly recommend seeking professional mental health support",
   "Contact a crisis helpline if experiencing suicidal thoughts",
   "Reach out to trusted friends, family, or support groups",
   "Consider medication evaluation with a psychiatrist",
   "Develop a safety plan with a mental health professional"]

/-- The object `generateFallbackPrediction` returns (also the shape the ML
service must answer with): classification string, confidence, recommendation
list, ISO timestamp string. -/
structure Prediction where
  prediction : String
  confidence : ℚ
  recommendations : List String
  timestamp : String
deriving DecidableEq, Repr

/-- The fallback scoring engine `generateFallbackPrediction`: computes the
risk score, then classifies with inclusive thresholds 30 and 60 evaluated in
order, attaching the per-bucket constant confidence and fixed recommendation
list. `now` stands for `new Date().toISOString()`. -/
def generateFallbackPrediction (now : String) (formData : FactorVector) : Prediction :=
  let score := riskScore formData
  if score ≤ 30 then
    { prediction := "Low Risk", confidence := 0.85,
      recommendations := lowRiskRecommendations, timestamp := now }
  else if score ≤ 60 then
    { prediction := "Medium Risk", confidence := 0.78,
      recommendations := mediumRiskRecommendations, timestamp := now }
  else
    { prediction := "High Risk", confidence := 0.82,
      recommendations := highRiskRecommendations, timestamp := now }

/-- The risk-score formula as worded in the spec (§4.2): the sleep bucket
written with the spec's explicit interval conditions, then the six linear
terms in the spec's order, then the three inverted terms. Used only to be
compared against `riskScore`, which is transcribed from the source. -/
def specRiskScore (f : FactorVector) : ℚ :=
  (if f.sleepHours < 6 then (15 : ℚ)
   else if 6 ≤ f.sleepHours ∧ f.sleepHours < 7 then 8
   else if 9 < f.sleepHours then 5
   else 0)
  + ((f.anxietyLevel : ℚ) - 1) * 2
  + ((f.stressFrequency : ℚ) - 1) * 2
  + ((f.financialStress : ℚ) - 1) * 1.5
  + ((f.substanceUse : ℚ) - 1) * 3
  + ((f.moodChanges : ℚ) - 1) * 2
  + ((f.suicidalThoughts : ℚ) - 1) * 5
  + (10 - (f.socialSupport : ℚ)) * 2
  + (10 - (f.workLifeBalance : ℚ)) * 1.5
  + (10 - (f.physicalActivity : ℚ)) * 1

/-- The worked example vector of the spec's end-to-end scenario. -/
def exampleVector : FactorVector :=
  { sleepHours := 5, anxietyLevel := 8, stressFrequency := 7,
    financialStress := 6, socialSupport := 3, workLifeBalance := 4,
    physicalActivity := 3, substanceUse := 2, moodChanges := 6,
    suicidalThoughts := 1 }

/-- A vector whose risk score is exactly 30 (anxiety 10 → 18, stress 7 → 12,
all other contributions 0): the Low/Medium boundary. -/
def boundary30Vector : FactorVector :=
  { sleepHours := 8, anxietyLevel := 10, stressFrequency := 7,
    financialStress := 1, socialSupport := 10, workLifeBalance := 10,
    physicalActivity := 10, substanceUse := 1, moodChanges := 1,
    suicidalThoughts := 1 }

/-- A vector whose risk score is exactly 60 (anxiety 18 + stress 18 +
mood 18 + financial 6): the Medium/High boundary. -/
def boundary60Vector : FactorVector :=
  { sleepHours := 8, anxietyLevel := 10, stressFrequency := 10,
    financialStress := 5, socialSupport := 10, workLifeBalance := 10,
    physicalActivity := 10, substanceUse := 1, moodChanges := 10,
    suicidalThoughts := 1 }

/-- The valid vector maximising every contribution (score 195). -/
def maxRiskVector : FactorVector :=
  { sleepHours := 0, anxietyLevel := 10, stressFrequency := 10,
    financialStress := 10, socialSupport := 1, workLifeBalance := 1,
    physicalActivity := 1, substanceUse := 10, moodChanges := 10,
    suicidalThoughts := 10 }

/-- The valid vector minimising every contribution (score 0). -/
def minRiskVector : FactorVector :=
  { sleepHours := 8, anxietyLevel := 1, stressFrequency := 1,
    financialStress := 1, socialSupport := 10, workLifeBalance := 10,
    physicalActivity := 10, substanceUse := 1, moodChanges := 1,
    suicidalThoughts := 1 }

/-! ## Validator and submit route -/

/-- One entry of the express-validator `errors.array()`: the offending field
and its human-readable message. -/
structure Violation where
  path : String
  msg : String
deriving DecidableEq, Repr

/-- A candidate request body: each declared field either carries an integer
(`some v`) or is missing / not an integer (`none`), which is exactly the
distinction `body(name).isInt({min, max})` draws before range-checking. -/
structure Candidate where
  sleepHours : Option Int
  anxietyLevel : Option Int
  stressFrequency : Option Int
  financialStress : Option Int
  socialSupport : Option Int
  workLifeBalance : Option Int
  physicalActivity : Option Int
  substanceUse : Option Int
  moodChanges : Option Int
  suicidalThoughts : Option Int
deriving DecidableEq, Repr

/-- Whether a candidate field passes `isInt({min, max})`: present, integer,
and inside the closed range. -/
def intOk (v : Option Int) (lo hi : Int) : Bool :=
  match v with
  | none => false
  | some x => decide (lo ≤ x ∧ x ≤ hi)

/-- One validator rule `body(path).isInt({min, max}).withMessage(msg)`:
contributes nothing when the field passes, one violation otherwise. -/
def checkIntField (path : String) (v : Option Int) (lo hi : Int) (msg : String) :
    List Violation :=
  if intOk v lo hi then [] else [{ path := path, msg := msg }]

/-- The `assessmentValidation` rule chain, in source order; the result is the
aggregated `errors.array()` of the request. -/
def assessmentValidation (c : Candidate) : List Violation :=
  checkIntField "sleepHours" c.sleepHours 0 12
    "Sleep hours must be between 0 and 12"
  ++ checkIntField "anxietyLevel" c.anxietyLevel 1 10
    "Anxiety level must be between 1 and 10"
  ++ checkIntField "stressFrequency" c.stressFrequency 1 10
    "Stress frequency must be between 1 and 10"
  ++ checkIntField "financialStress" c.financialStress 1 10
    "Financial stress must be between 1 and 10"
  ++ checkIntField "socialSupport" c.socialSupport 1 10
    "Social support must be between 1 and 10"
  ++ checkIntField "workLifeBalance" c.workLifeBalance 1 10
    "Work-life balance must be between 1 and 10"
  ++ checkIntField "physicalActivity" c.physicalActivity 1 10
    "Physical activity must be between 1 and 10"
  ++ checkIntField "substanceUse" c.substanceUse 1 10
    "Substance use must be between 1 and 10"
  ++ checkIntField "moodChanges" c.moodChanges 1 10
    "Mood changes must be between 1 and 10"
  ++ checkIntField "suicidalThoughts" c.suicidalThoughts 1 10
    "Suicidal thoughts must be between 1 and 10"

/-- Reading the validated body into a `FactorVector` (`const formData =
req.body` after validation passed); `none` when some field is absent. -/
def Candidate.extract (c : Candidate) : Option FactorVector :=
  match c.sleepHours, c.anxietyLevel, c.stressFrequency, c.financialStress,
        c.socialSupport, c.workLifeBalance, c.physicalActivity,
        c.substanceUse, c.moodChanges, c.suicidalThoughts with
  | some a, some b, some d, some e, some g, some h, some i, some j, some k, some l =>
      some { sleepHours := a, anxietyLevel := b, stressFrequency := d,
             financialStress := e, socialSupport := g, workLifeBalance := h,
             physicalActivity := i, substanceUse := j, moodChanges := k,
             suicidalThoughts := l }
  | _, _, _, _, _, _, _, _, _, _ => none

/-- The ways the `axios.post` promise to the ML API rejects — and the only
situations the route's `catch (mlError)` handles: timeout, connection
failure, or a non-2xx status. A 2xx response is never a failure here,
whatever the shape of its body: axios resolves and the route assigns
`prediction = mlResponse.data` with no shape check. -/
inductive MlFailure where
  | timeout
  | connectionFailure
  | badStatus (code : Nat)
deriving DecidableEq, Repr

/-- The body of a resolved 2xx predictor response, of arbitrary shape: each
expected field may be present with a value or absent (or of the wrong type,
which the persistence schema treats the same as absent). -/
structure MlData where
  prediction : Option String
  confidence : Option ℚ
  recommendations : List String
  timestamp : Option String
deriving DecidableEq, Repr

/-- A well-formed prediction viewed as a response body: every field present. -/
def Prediction.toData (p : Prediction) : MlData :=
  { prediction := some p.prediction, confidence := some p.confidence,
    recommendations := p.recommendations, timestamp := some p.timestamp }

/-- Outcome of the single `axios.post` to the predictor: a resolved 2xx body
(used verbatim, whatever its shape) or a promise rejection. -/
inductive MlResult where
  | ok (data : MlData)
  | err (e : MlFailure)
deriving DecidableEq, Repr

/-- The Mongoose submission-schema checks on the embedded `prediction`
subdocument that a predictor body can violate: `prediction.prediction` is
required with enum {Low Risk, Medium Risk, High Risk}, and `confidence` is
required with min 0 and max 1. (`recommendations` entries and `timestamp`
are unconstrained or defaulted, and the `formData` part was already
range-checked by the validator with the same bounds the schema declares.)
`submission.save()` rejects when these fail, which the route's outer catch
answers with a 500. -/
def submissionSchemaAccepts (d : MlData) : Bool :=
  (match d.prediction with
   | some s => decide (s = "Low Risk" ∨ s = "Medium Risk" ∨ s = "High Risk")
   | none => false)
  && (match d.confidence with
   | some cf => decide (0 ≤ cf ∧ cf ≤ 1)
   | none => false)

/-- A resolved 2xx body with none of the expected fields — for example an
empty JSON object from a misconfigured predictor. -/
def malformedData : MlData :=
  { prediction := none, confidence := none, recommendations := [],
    timestamp := none }

/-- The observable outcome of `POST /submit`: HTTP status, `success` flag,
`message`, the prediction payload (if any), the validation errors (if any),
and whether a Submission document was persisted. -/
structure SubmitResponse where
  status : Nat
  success : Bool
  message : String
  data : Option MlData
  errors : List Violation
  saved : Bool
deriving DecidableEq, Repr

/-- The `POST /submit` handler after authentication: reject with 400 when
validation produced errors; otherwise take the resolved ML body verbatim if
the call succeeded, else the fallback prediction; persist and answer 200.
The save succeeds only when the infrastructure write works (`saveOk`) and
the document passes the submission schema; a failed save, like any other
thrown error, is caught by the outer handler and answered 500 with nothing
persisted. -/
def handleSubmit (c : Candidate) (ml : MlResult) (saveOk : Bool) (now : String) :
    SubmitResponse :=
  let errors := assessmentValidation c
  if errors.isEmpty then
    match c.extract with
    | some formData =>
        let prediction :=
          match ml with
          | .ok data => data
          | .err _ => (generateFallbackPrediction now formData).toData
        if saveOk && submissionSchemaAccepts prediction then
          { status := 200, success := true,
            message := "Assessment completed successfully",
            data := some prediction, errors := [], saved := true }
        else
          { status := 500, success := false,
            message := "Server error during assessment submission",
            data := none, errors := [], saved := false }
    | none =>
        { status := 500, success := false,
          message := "Server error during assessment submission",
          data := none, errors := [], saved := false }
  else
    { status := 400, success := false, message := "Validation failed",
      data := none, errors := errors, saved := false }

/-! ## History route -/

/-- The `pagination` object of the history response. -/
structure Pagination where
  page : Nat
  limit : Nat
  total : Nat
  pages : Nat
deriving DecidableEq, Repr

/-- The `GET /history` response: the page of submissions and the pagination
metadata. -/
structure HistoryResponse (α : Type) where
  success : Bool
  data : List α
  pagination : Pagination

/-- The `GET /history` handler over the user's submissions already ordered
by `createdAt` descending (the route's `.sort({ createdAt: -1 })`).
`parseInt(q) || d` is modelled on naturals: an absent parameter or a parsed 0
falls back to the default (0 is falsy in JavaScript). `Math.ceil` of the
float division is the rational ceiling. -/
def getHistory {α : Type} (subsByRecency : List α) (pageQ limitQ : Option Nat) :
    HistoryResponse α :=
  let page := match pageQ with
    | some p => if p = 0 then 1 else p
    | none => 1
  let limit := match limitQ with
    | some l => if l = 0 then 10 else l
    | none => 10
  let skip := (page - 1) * limit
  let total := subsByRecency.length
  { success := true,
    data := (subsByRecency.drop skip).take limit,
    pagination :=
      { page := page, limit := limit, total := total,
        pages := (⌈(total : ℚ) / (limit : ℚ)⌉).toNat } }

/-! ## Dashboard trend derivation -/

/-- The classification union type of the frontend
(`'Low Risk' | 'Medium Risk' | 'High Risk'`). -/
inductive Classification where
  | lowRisk
  | mediumRisk
  | highRisk
deriving DecidableEq, Repr

/-- The `riskLevels` lookup object of `getRiskTrend`. -/
def riskLevels : Classification → Nat
  | .lowRisk => 1
  | .mediumRisk => 2
  | .highRisk => 3

/-- The three trend values `getRiskTrend` can produce. -/
inductive Trend where
  | improving
  | worsening
  | stable
deriving DecidableEq, Repr

/-- The Dashboard's `getRiskTrend` over the classification of each stored
submission's prediction, newest first: `null` when fewer than two
submissions, otherwise the ordinal comparison of entries 0 and 1. -/
def getRiskTrend (assessmentHistory : List Classification) : Option Trend :=
  match assessmentHistory with
  | latest :: previous :: _ =>
      let latestLevel := riskLevels latest
      let previousLevel := riskLevels previous
      if latestLevel < previousLevel then some .improving
      else if latestLevel > previousLevel then some .worsening
      else some .stable
  | _ => none

/-- The spec's worked example vector as a request body. -/
def exampleCandidate : Candidate :=
  { sleepHours := some 5, anxietyLevel := some 8, stressFrequency := some 7,
    financialStress := some 6, socialSupport := some 3,
    workLifeBalance := some 4, physicalActivity := some 3,
    substanceUse := some 2, moodChanges := some 6, suicidalThoughts := some 1 }

/-- A request body with every declared field missing. -/
def emptyCandidate : Candidate :=
  { sleepHours := none, anxietyLevel := none, stressFrequency := none,
    financialStress := none, socialSupport := none, workLifeBalance := none,
    physicalActivity := none, substanceUse := none, moodChanges := none,
    suicidalThoughts := none }

/-! ## Theorems -/

/-- C1: for every valid FactorVector the fallback engine's risk score equals
exactly the spec's sum — the three-bucket sleep penalty plus the weighted
linear terms and the weighted inverted terms — with no lower or upper clamp
applied. -/
theorem riskScore_eq_specRiskScore (f : FactorVector) (_hf : f.Valid) :
    riskScore f = specRiskScore f := by
  unfold riskScore specRiskScore
  split_ifs <;> first | ring1 | (exfalso; omega)

/-- Witness for C1 at the spec's worked example vector. -/
theorem riskScore_eq_specRiskScore_witness :
    exampleVector.Valid ∧ riskScore exampleVector = specRiskScore exampleVector :=
  ⟨by decide, riskScore_eq_specRiskScore exampleVector (by decide)⟩

/-- C2: classification uses inclusive boundaries evaluated in order — score
≤ 30 gives Low Risk with confidence 0.85 and recommendation set A, 30 < score
≤ 60 gives Medium Risk with confidence 0.78 and set B, score > 60 gives High
Risk with confidence 0.82 and set C; a score of exactly 30 classifies Low and
exactly 60 classifies Medium; confidence and recommendations are bucket
constants, independent of the score value. -/
theorem classification_buckets (now : String) (f : FactorVector) :
    (riskScore f ≤ 30 → generateFallbackPrediction now f =
      { prediction := "Low Risk", confidence := 0.85,
        recommendations := lowRiskRecommendations, timestamp := now }) ∧
    (30 < riskScore f → riskScore f ≤ 60 → generateFallbackPrediction now f =
      { prediction := "Medium Risk", confidence := 0.78,
        recommendations := mediumRiskRecommendations, timestamp := now }) ∧
    (60 < riskScore f → generateFallbackPrediction now f =
      { prediction := "High Risk", confidence := 0.82,
        recommendations := highRiskRecommendations, timestamp := now }) ∧
    riskScore boundary30Vector = 30 ∧
    (generateFallbackPrediction now boundary30Vector).prediction = "Low Risk" ∧
    riskScore boundary60Vector = 60 ∧
    (generateFallbackPrediction now boundary60Vector).prediction = "Medium Risk" := by
  refine ⟨fun h => ?_, fun h1 h2 => ?_, fun h => ?_, ?_, ?_, ?_, ?_⟩
  · simp only [generateFallbackPrediction]
    rw [if_pos h]
  · simp only [generateFallbackPrediction]
    rw [if_neg (not_le.mpr h1), if_pos h2]
  · simp only [generateFallbackPrediction]
    rw [if_neg (not_le.mpr (by linarith)), if_neg (not_le.mpr h)]
  · norm_num [riskScore, boundary30Vector]
  · norm_num [generateFallbackPrediction, riskScore, boundary30Vector]
  · norm_num [riskScore, boundary60Vector]
  · norm_num [generateFallbackPrediction, riskScore, boundary60Vector]

/-- Witness for C2: the all-calm vector scores at most 30 and gets the Low
Risk bucket with its constants. -/
theorem classification_buckets_witness :
    riskScore minRiskVector ≤ 30 ∧
    generateFallbackPrediction "t" minRiskVector =
      { prediction := "Low Risk", confidence := 0.85,
        recommendations := lowRiskRecommendations, timestamp := "t" } :=
  ⟨by norm_num [riskScore, minRiskVector],
   (classification_buckets "t" minRiskVector).1
     (by norm_num [riskScore, minRiskVector])⟩

/-- C4: with all other fields fixed and within range, increasing any of the
six direct factors (anxiety, stress, financial stress, substance use, mood
changes, suicidal thoughts) never decreases the risk score, and increasing
any of the three protective factors (social support, work-life balance,
physical activity) never increases it. -/
theorem riskScore_monotone (f : FactorVector) (a b : Int) (_hf : f.Valid)
    (_h1 : 1 ≤ a) (hab : a ≤ b) (_h2 : b ≤ 10) :
    riskScore { f with anxietyLevel := a } ≤ riskScore { f with anxietyLevel := b } ∧
    riskScore { f with stressFrequency := a } ≤ riskScore { f with stressFrequency := b } ∧
    riskScore { f with financialStress := a } ≤ riskScore { f with financialStress := b } ∧
    riskScore { f with substanceUse := a } ≤ riskScore { f with substanceUse := b } ∧
    riskScore { f with moodChanges := a } ≤ riskScore { f with moodChanges := b } ∧
    riskScore { f with suicidalThoughts := a } ≤ riskScore { f with suicidalThoughts := b } ∧
    riskScore { f with socialSupport := b } ≤ riskScore { f with socialSupport := a } ∧
    riskScore { f with workLifeBalance := b } ≤ riskScore { f with workLifeBalance := a } ∧
    riskScore { f with physicalActivity := b } ≤ riskScore { f with physicalActivity := a } := by
  have hq : (a : ℚ) ≤ (b : ℚ) := by exact_mod_cast hab
  refine ⟨?_, ?_, ?_, ?_, ?_, ?_, ?_, ?_, ?_⟩ <;>
    · dsimp only [riskScore]
      linarith

/-- Witness for C4 at the all-calm vector with anxiety raised from 2 to 3. -/
theorem riskScore_monotone_witness :
    minRiskVector.Valid ∧ (1 : Int) ≤ 2 ∧ (2 : Int) ≤ 3 ∧ (3 : Int) ≤ 10 ∧
    riskScore { minRiskVector with anxietyLevel := 2 } ≤
      riskScore { minRiskVector with anxietyLevel := 3 } :=
  ⟨by decide, by decide, by decide, by decide,
   (riskScore_monotone minRiskVector 2 3 (by decide) (by decide) (by decide)
     (by decide)).1⟩

/-- C5: the spec's end-to-end vector scores exactly 91.5 — the stated sum of
its ten contributions — and is classified High Risk with confidence 0.82 and
recommendation set C. -/
theorem exampleVector_scenario :
    riskScore exampleVector = 91.5 ∧
    riskScore exampleVector = 15 + 14 + 12 + 7.5 + 14 + 9 + 7 + 3 + 10 + 0 ∧
    ∀ now, generateFallbackPrediction now exampleVector =
      { prediction := "High Risk", confidence := 0.82,
        recommendations := highRiskRecommendations, timestamp := now } := by
  refine ⟨by norm_num [riskScore, exampleVector],
          by norm_num [riskScore, exampleVector], fun now => ?_⟩
  norm_num [generateFallbackPrediction, riskScore, exampleVector]

/-- C6: with at least two submissions (newest first) the trend is the ordinal
comparison of the two most recent classifications — strictly smaller newest
ordinal means improving, strictly larger means worsening, equal means stable
— and with fewer than two submissions there is no trend. -/
theorem getRiskTrend_ordinal (a b : Classification) (rest : List Classification) :
    getRiskTrend [] = none ∧
    getRiskTrend [a] = none ∧
    getRiskTrend (a :: b :: rest) =
      some (if riskLevels a < riskLevels b then Trend.improving
            else if riskLevels b < riskLevels a then Trend.worsening
            else Trend.stable) := by
  refine ⟨rfl, rfl, ?_⟩
  cases a <;> cases b <;> rfl

/-- C7 counterexample: with Low Risk newest and Medium Risk previous the code
compares ordinal 1 against 2 and reports improving, not worsening as claimed
(and symmetrically High then Medium reports worsening, not improving). -/
theorem getRiskTrend_examples_counterexample :
    getRiskTrend [Classification.lowRisk, Classification.mediumRisk] =
      some Trend.improving ∧
    getRiskTrend [Classification.lowRisk, Classification.mediumRisk] ≠
      some Trend.worsening ∧
    getRiskTrend [Classification.highRisk, Classification.mediumRisk] =
      some Trend.worsening ∧
    getRiskTrend [Classification.highRisk, Classification.mediumRisk] ≠
      some Trend.improving := by decide

/-- C7 amended: in newest-first order [Low, Medium] is improving and
[High, Medium] is worsening; [Medium, Medium] is stable, and a single
submission gives no trend. -/
theorem getRiskTrend_examples :
    getRiskTrend [Classification.lowRisk, Classification.mediumRisk] =
      some Trend.improving ∧
    getRiskTrend [Classification.highRisk, Classification.mediumRisk] =
      some Trend.worsening ∧
    getRiskTrend [Classification.mediumRisk, Classification.mediumRisk] =
      some Trend.stable ∧
    ∀ x : Classification, getRiskTrend [x] = none :=
  ⟨by decide, by decide, by decide, fun x => by cases x <;> rfl⟩

/-- The fallback engine's output always passes the submission schema: its
classification is one of the enum strings and its confidence constant lies
in [0, 1], so the fallback path's save never fails schema validation. -/
theorem fallback_passes_schema (now : String) (f : FactorVector) :
    submissionSchemaAccepts (generateFallbackPrediction now f).toData = true := by
  have hgfp : generateFallbackPrediction now f =
      (if riskScore f ≤ 30 then
        { prediction := "Low Risk", confidence := 0.85,
          recommendations := lowRiskRecommendations, timestamp := now }
       else if riskScore f ≤ 60 then
        { prediction := "Medium Risk", confidence := 0.78,
          recommendations := mediumRiskRecommendations, timestamp := now }
       else
        { prediction := "High Risk", confidence := 0.82,
          recommendations := highRiskRecommendations, timestamp := now }) := rfl
  rw [hgfp]
  split_ifs <;>
    · simp [submissionSchemaAccepts, Prediction.toData, decide_eq_true_iff]
      norm_num

/-- C3 counterexample: a 2xx predictor response with a wrong-shaped body is
not a promise rejection, so the submit handler does not fall back; the body
is used verbatim, the Mongoose save rejects it, and the caller receives a
500 — a caller-visible error and a changed HTTP-level outcome, refuting the
malformed-response case of the claim. -/
theorem submit_malformed_body_counterexample :
    handleSubmit exampleCandidate (MlResult.ok malformedData) true "t" =
      { status := 500, success := false,
        message := "Server error during assessment submission",
        data := none, errors := [], saved := false } ∧
    (handleSubmit exampleCandidate (MlResult.ok malformedData) true "t").status
      ≠ 200 ∧
    (handleSubmit exampleCandidate (MlResult.ok malformedData) true "t").success
      = false ∧
    (handleSubmit exampleCandidate (MlResult.ok malformedData) true "t").saved
      = false := by
  decide

/-- C3 amended: whenever the predictor call's promise rejects — timeout,
connection failure, or non-success status — the submit handler falls back to
the deterministic engine and completes as a 200 success with no
caller-visible error; the rejection kind is irrelevant (single attempt, no
retry), and the HTTP-level outcome (status, success flag, persistence) is
the same as with a schema-conforming predictor success. A 2xx response with
a wrong-shaped body is not such a failure: it is used verbatim and its
failing save yields a 500. -/
theorem submit_fallback_on_predictor_failure (c : Candidate) (f : FactorVector)
    (e : MlFailure) (saveOk : Bool) (now : String)
    (hval : assessmentValidation c = []) (hext : c.extract = some f) :
    handleSubmit c (MlResult.err e) true now =
      { status := 200, success := true,
        message := "Assessment completed successfully",
        data := some (generateFallbackPrediction now f).toData, errors := [],
        saved := true } ∧
    (∀ e2 : MlFailure, handleSubmit c (MlResult.err e) saveOk now =
        handleSubmit c (MlResult.err e2) saveOk now) ∧
    (∀ d : MlData, submissionSchemaAccepts d = true →
      (handleSubmit c (MlResult.err e) saveOk now).status =
        (handleSubmit c (MlResult.ok d) saveOk now).status ∧
      (handleSubmit c (MlResult.err e) saveOk now).success =
        (handleSubmit c (MlResult.ok d) saveOk now).success ∧
      (handleSubmit c (MlResult.err e) saveOk now).saved =
        (handleSubmit c (MlResult.ok d) saveOk now).saved) := by
  refine ⟨?_, fun e2 => ?_, fun d hd => ?_⟩
  · simp [handleSubmit, hval, hext, fallback_passes_schema]
  · simp [handleSubmit, hval, hext]
  · cases saveOk <;>
      simp [handleSubmit, hval, hext, fallback_passes_schema, hd]

/-- Witness for C3: the worked example payload with a timed-out predictor. -/
theorem submit_fallback_on_predictor_failure_witness :
    assessmentValidation exampleCandidate = [] ∧
    exampleCandidate.extract = some exampleVector ∧
    handleSubmit exampleCandidate (MlResult.err MlFailure.timeout) true "t" =
      { status := 200, success := true,
        message := "Assessment completed successfully",
        data := some (generateFallbackPrediction "t" exampleVector).toData,
        errors := [], saved := true } :=
  ⟨by decide, by decide,
   (submit_fallback_on_predictor_failure exampleCandidate exampleVector
     MlFailure.timeout true "t" (by decide) (by decide)).1⟩

/-- Membership in one validator rule's contribution: the rule's own violation
is listed exactly when the field fails its check. -/
theorem mem_checkIntField (x : Violation) (path : String) (v : Option Int)
    (lo hi : Int) (msg : String) :
    x ∈ checkIntField path v lo hi msg ↔
      (x = { path := path, msg := msg } ∧ intOk v lo hi = false) := by
  unfold checkIntField
  cases h : intOk v lo hi <;> simp [h]

/-- One validator rule contributes nothing exactly when its field passes. -/
theorem checkIntField_eq_nil (path : String) (v : Option Int) (lo hi : Int)
    (msg : String) :
    checkIntField path v lo hi msg = [] ↔ intOk v lo hi = true := by
  unfold checkIntField
  cases h : intOk v lo hi <;> simp [h]

/-- C8: the validator accepts exactly when all ten declared fields are
present integers inside their ranges; each violated field's entry appears in
the aggregated error list (all violations in one pass, not just the first);
and a request with a non-empty error list is answered 400 with that list and
no assessment is produced or persisted. -/
theorem validator_rejects_and_aggregates (c : Candidate) (ml : MlResult)
    (saveOk : Bool) (now : String) :
    (assessmentValidation c = [] ↔
      (intOk c.sleepHours 0 12 = true ∧ intOk c.anxietyLevel 1 10 = true ∧
       intOk c.stressFrequency 1 10 = true ∧ intOk c.financialStress 1 10 = true ∧
       intOk c.socialSupport 1 10 = true ∧ intOk c.workLifeBalance 1 10 = true ∧
       intOk c.physicalActivity 1 10 = true ∧ intOk c.substanceUse 1 10 = true ∧
       intOk c.moodChanges 1 10 = true ∧ intOk c.suicidalThoughts 1 10 = true)) ∧
    (intOk c.sleepHours 0 12 = false ↔
      ({ path := "sleepHours", msg := "Sleep hours must be between 0 and 12" } :
        Violation) ∈ assessmentValidation c) ∧
    (intOk c.anxietyLevel 1 10 = false ↔
      ({ path := "anxietyLevel", msg := "Anxiety level must be between 1 and 10" } :
        Violation) ∈ assessmentValidation c) ∧
    (intOk c.stressFrequency 1 10 = false ↔
      ({ path := "stressFrequency", msg := "Stress frequency must be between 1 and 10" } :
        Violation) ∈ assessmentValidation c) ∧
    (intOk c.financialStress 1 10 = false ↔
      ({ path := "financialStress", msg := "Financial stress must be between 1 and 10" } :
        Violation) ∈ assessmentValidation c) ∧
    (intOk c.socialSupport 1 10 = false ↔
      ({ path := "socialSupport", msg := "Social support must be between 1 and 10" } :
        Violation) ∈ assessmentValidation c) ∧
    (intOk c.workLifeBalance 1 10 = false ↔
      ({ path := "workLifeBalance", msg := "Work-life balance must be between 1 and 10" } :
        Violation) ∈ assessmentValidation c) ∧
    (intOk c.physicalActivity 1 10 = false ↔
      ({ path := "physicalActivity", msg := "Physical activity must be between 1 and 10" } :
        Violation) ∈ assessmentValidation c) ∧
    (intOk c.substanceUse 1 10 = false ↔
      ({ path := "substanceUse", msg := "Substance use must be between 1 and 10" } :
        Violation) ∈ assessmentValidation c) ∧
    (intOk c.moodChanges 1 10 = false ↔
      ({ path := "moodChanges", msg := "Mood changes must be between 1 and 10" } :
        Violation) ∈ assessmentValidation c) ∧
    (intOk c.suicidalThoughts 1 10 = false ↔
      ({ path := "suicidalThoughts", msg := "Suicidal thoughts must be between 1 and 10" } :
        Violation) ∈ assessmentValidation c) ∧
    (assessmentValidation c ≠ [] →
      handleSubmit c ml saveOk now =
        { status := 400, success := false, message := "Validation failed",
          data := none, errors := assessmentValidation c, saved := false }) := by
  refine ⟨?_, ?_, ?_, ?_, ?_, ?_, ?_, ?_, ?_, ?_, ?_, ?_⟩
  · simp [assessmentValidation, List.append_eq_nil, checkIntField_eq_nil]
  rotate_right
  · intro hne
    have h : (assessmentValidation c).isEmpty = false := by
      cases hv : assessmentValidation c with
      | nil => exact absurd hv hne
      | cons x xs => rfl
    simp [handleSubmit, h]
  all_goals
    simp [assessmentValidation, List.mem_append, mem_checkIntField,
      Violation.mk.injEq]

/-- Witness for C8: the empty request body is rejected with 400, the full
violation list, and no persisted assessment. -/
theorem validator_rejects_and_aggregates_witness :
    assessmentValidation emptyCandidate ≠ [] ∧
    handleSubmit emptyCandidate (MlResult.err MlFailure.timeout) true "t" =
      { status := 400, success := false, message := "Validation failed",
        data := none, errors := assessmentValidation emptyCandidate,
        saved := false } :=
  ⟨by decide,
   (validator_rejects_and_aggregates emptyCandidate
     (MlResult.err MlFailure.timeout) true
     "t").2.2.2.2.2.2.2.2.2.2.2 (by decide)⟩

/-- The rational ceiling of a natural division, as computed by the history
route's `Math.ceil(total / limit)`, equals the rounding-up integer division
`(t + n - 1) / n`. -/
theorem ceil_div_toNat (t n : Nat) (hn : 0 < n) :
    (⌈(t : ℚ) / (n : ℚ)⌉).toNat = (t + n - 1) / n := by
  have hz := Nat.div_add_mod (t + n - 1) n
  have hr : (t + n - 1) % n < n := Nat.mod_lt _ hn
  set z := (t + n - 1) / n with hzdef
  have h1 : t ≤ n * z := by omega
  have h2 : n * z < t + n := by omega
  have hn0 : (0 : ℚ) < (n : ℚ) := by exact_mod_cast hn
  have key : ⌈(t : ℚ) / (n : ℚ)⌉ = (z : ℤ) := by
    rw [Int.ceil_eq_iff]
    constructor
    · rw [lt_div_iff₀ hn0]
      have hc : (n : ℚ) * z < t + n := by exact_mod_cast h2
      push_cast
      nlinarith
    · rw [div_le_iff₀ hn0]
      have hc : (t : ℚ) ≤ n * z := by exact_mod_cast h1
      push_cast
      nlinarith
  rw [key, Int.toNat_natCast]

/-- C9: a history query with positive page `p` and page size `n` over `t`
stored submissions (already ordered newest first) returns at position `i` of
the page exactly the stored submission at offset `(p-1)*n + i`, at most `n`
items, and metadata `total = t`, `pages = ceil(t/n)`; in particular 25
submissions with page 2 and limit 10 give items 11–20 and 3 pages. -/
theorem history_pagination {α : Type} (subs : List α) (p n : Nat)
    (hp : 0 < p) (hn : 0 < n) :
    (getHistory subs (some p) (some n)).data.length ≤ n ∧
    (∀ i, i < n →
      (getHistory subs (some p) (some n)).data[i]? = subs[(p - 1) * n + i]?) ∧
    (getHistory subs (some p) (some n)).pagination.total = subs.length ∧
    (getHistory subs (some p) (some n)).pagination.pages =
      (subs.length + n - 1) / n ∧
    (getHistory (List.range 25) (some 2) (some 10)).data =
      [10, 11, 12, 13, 14, 15, 16, 17, 18, 19] ∧
    (getHistory (List.range 25) (some 2) (some 10)).pagination.pages = 3 := by
  have hp0 : p ≠ 0 := Nat.pos_iff_ne_zero.mp hp
  have hn0 : n ≠ 0 := Nat.pos_iff_ne_zero.mp hn
  have hdata : (getHistory subs (some p) (some n)).data =
      (subs.drop ((p - 1) * n)).take n := by
    simp [getHistory, hp0, hn0]
  refine ⟨?_, ?_, ?_, ?_, ?_, ?_⟩
  · rw [hdata]
    exact (List.length_take_le _ _).trans (le_refl n)
  · intro i hi
    rw [hdata, List.getElem?_take_of_lt hi, List.getElem?_drop]
  · simp [getHistory, hp0, hn0]
  · have hpages : (getHistory subs (some p) (some n)).pagination.pages =
        (⌈(subs.length : ℚ) / (n : ℚ)⌉).toNat := by
      simp [getHistory, hp0, hn0]
    rw [hpages]
    exact ceil_div_toNat subs.length n hn
  · decide
  · have hpages : (getHistory (α := Nat) (List.range 25) (some 2)
        (some 10)).pagination.pages = (⌈((25 : Nat) : ℚ) / ((10 : Nat) : ℚ)⌉).toNat := by
      simp [getHistory]
    rw [hpages, ceil_div_toNat 25 10 (by norm_num)]

/-- Witness for C9: the concrete 25-submission store at page 2, limit 10. -/
theorem history_pagination_witness :
    0 < 2 ∧ 0 < 10 ∧
    (getHistory (List.range 25) (some 2) (some 10)).pagination.total = 25 := by
  refine ⟨by decide, by decide, ?_⟩
  have h := (history_pagination (List.range 25) 2 10 (by decide) (by decide)).2.2.1
  simpa using h

/-- Bounds of the unclamped risk score over valid vectors: between 0 and 195
(15 from sleep, 18+18+13.5+27+18+45 from the direct terms, 18+13.5+9 from the
inverted terms). -/
theorem riskScore_bounds (f : FactorVector) (hf : f.Valid) :
    0 ≤ riskScore f ∧ riskScore f ≤ 195 := by
  obtain ⟨h1, h2, h3, h4, h5, h6, h7, h8, h9, h10,
          h11, h12, h13, h14, h15, h16, h17, h18, h19, h20⟩ := hf
  have q3 : (1 : ℚ) ≤ f.anxietyLevel := by exact_mod_cast h3
  have q4 : (f.anxietyLevel : ℚ) ≤ 10 := by exact_mod_cast h4
  have q5 : (1 : ℚ) ≤ f.stressFrequency := by exact_mod_cast h5
  have q6 : (f.stressFrequency : ℚ) ≤ 10 := by exact_mod_cast h6
  have q7 : (1 : ℚ) ≤ f.financialStress := by exact_mod_cast h7
  have q8 : (f.financialStress : ℚ) ≤ 10 := by exact_mod_cast h8
  have q9 : (1 : ℚ) ≤ f.socialSupport := by exact_mod_cast h9
  have q10 : (f.socialSupport : ℚ) ≤ 10 := by exact_mod_cast h10
  have q11 : (1 : ℚ) ≤ f.workLifeBalance := by exact_mod_cast h11
  have q12 : (f.workLifeBalance : ℚ) ≤ 10 := by exact_mod_cast h12
  have q13 : (1 : ℚ) ≤ f.physicalActivity := by exact_mod_cast h13
  have q14 : (f.physicalActivity : ℚ) ≤ 10 := by exact_mod_cast h14
  have q15 : (1 : ℚ) ≤ f.substanceUse := by exact_mod_cast h15
  have q16 : (f.substanceUse : ℚ) ≤ 10 := by exact_mod_cast h16
  have q17 : (1 : ℚ) ≤ f.moodChanges := by exact_mod_cast h17
  have q18 : (f.moodChanges : ℚ) ≤ 10 := by exact_mod_cast h18
  have q19 : (1 : ℚ) ≤ f.suicidalThoughts := by exact_mod_cast h19
  have q20 : (f.suicidalThoughts : ℚ) ≤ 10 := by exact_mod_cast h20
  unfold riskScore
  constructor
  · split_ifs <;> linarith
  · split_ifs <;> linarith

/-- C10: over valid vectors the fallback risk score stays inside [0, 195]
(and both ends are attained by valid vectors, so [0, 100] would be wrong),
and the engine's output always satisfies the persisted-schema constraints:
classification is one of the three enum strings, confidence is one of the
bucket constants 0.85, 0.78, 0.82 (hence within [0, 1]), and the
recommendation list is non-empty — 4 entries for Low Risk, 5 for Medium and
High. -/
theorem fallback_output_invariants (now : String) (f : FactorVector)
    (hf : f.Valid) :
    (0 ≤ riskScore f ∧ riskScore f ≤ 195) ∧
    ((generateFallbackPrediction now f).prediction = "Low Risk" ∨
     (generateFallbackPrediction now f).prediction = "Medium Risk" ∨
     (generateFallbackPrediction now f).prediction = "High Risk") ∧
    ((generateFallbackPrediction now f).confidence = 0.85 ∨
     (generateFallbackPrediction now f).confidence = 0.78 ∨
     (generateFallbackPrediction now f).confidence = 0.82) ∧
    (0 ≤ (generateFallbackPrediction now f).confidence ∧
     (generateFallbackPrediction now f).confidence ≤ 1) ∧
    (generateFallbackPrediction now f).recommendations ≠ [] ∧
    ((generateFallbackPrediction now f).prediction = "Low Risk" →
      (generateFallbackPrediction now f).recommendations.length = 4) ∧
    ((generateFallbackPrediction now f).prediction = "Medium Risk" →
      (generateFallbackPrediction now f).recommendations.length = 5) ∧
    ((generateFallbackPrediction now f).prediction = "High Risk" →
      (generateFallbackPrediction now f).recommendations.length = 5) ∧
    maxRiskVector.Valid ∧ riskScore maxRiskVector = 195 ∧
    minRiskVector.Valid ∧ riskScore minRiskVector = 0 := by
  refine ⟨riskScore_bounds f hf, ?_⟩
  have htail : maxRiskVector.Valid ∧ riskScore maxRiskVector = 195 ∧
      minRiskVector.Valid ∧ riskScore minRiskVector = 0 := by
    refine ⟨by decide, by norm_num [riskScore, maxRiskVector],
            by decide, by norm_num [riskScore, minRiskVector]⟩
  have hgfp : generateFallbackPrediction now f =
      (if riskScore f ≤ 30 then
        { prediction := "Low Risk", confidence := 0.85,
          recommendations := lowRiskRecommendations, timestamp := now }
       else if riskScore f ≤ 60 then
        { prediction := "Medium Risk", confidence := 0.78,
          recommendations := mediumRiskRecommendations, timestamp := now }
       else
        { prediction := "High Risk", confidence := 0.82,
          recommendations := highRiskRecommendations, timestamp := now }) := rfl
  rw [hgfp]
  split_ifs <;>
    · simp [htail, lowRiskRecommendations, mediumRiskRecommendations,
        highRiskRecommendations]
      norm_num

/-- Witness for C10 at the spec's worked example vector. -/
theorem fallback_output_invariants_witness :
    exampleVector.Valid ∧
    (0 ≤ riskScore exampleVector ∧ riskScore exampleVector ≤ 195) :=
  ⟨by decide, (fallback_output_invariants "t" exampleVector (by decide)).1⟩

end MindGuard
